import Mathlib

/-! FediResolve — verification of the resolver core

A shallow embedding of the FediResolve resolver (package `resolver`:
`resolver.go`, `helpers.go`, `redirect.go`) together with theorems that
settle the frozen claims about it.

Modelling conventions:
* Go strings are Lean `String`s; the Go standard-library string helpers
  used by the source (`strings.Contains`, `strings.Split`, `strings.Count`,
  `fmt.Sprintf` with `%s`, `url.QueryEscape`, path extraction from
  `net/url.URL`) are re-implemented below over `List Char`, faithful to
  their documented behaviour on the ASCII inputs the resolver handles.
* The network is an oracle `Env.server : HttpRequest → Option HttpResponse`
  (`none` models a transport error).  Every issued request is logged
  together with the configuration of the `http.Client` that sent it.
* `encoding/json.Unmarshal` into `map[string]interface{}` (and into the
  WebFinger / NodeInfo-discovery structs) is third-party code; it is
  modelled as decoder fields of `Env`, so theorems quantify over any
  decoder.  The object fetchers apply the decoder exactly where the source
  calls `json.Unmarshal`.
* Unbounded (mutual) recursion in the source is embedded with an explicit
  fuel parameter; `FetchRes.outOfFuel` for every fuel value means the Go
  functions, which have no such bound, do not terminate.
* RSA key generation and the go-fed `httpsig` signer are modelled
  symbolically: a signature is an injective-by-construction string built
  from the key, the covered headers and the signing string.
-/

namespace FediResolve

/-! Go string helpers -/

/-- Does `t` occur as a prefix of `s`? (helper for substring search). -/
def listStartsWith : List Char → List Char → Bool
  | _, [] => true
  | [], _ :: _ => false
  | c :: s, d :: t => c == d && listStartsWith s t

/-- Go `strings.Contains s t` (second argument is the needle). -/
def listContainsSub : List Char → List Char → Bool
  | _, [] => true
  | [], _ :: _ => false
  | c :: s, d :: t => listStartsWith (c :: s) (d :: t) || listContainsSub s (d :: t)

/-- Go `strings.Contains`. -/
def goContains (s t : String) : Bool := listContainsSub s.data t.data

/-- Go `strings.HasPrefix` / indexing `s[0]` checks. -/
def goStartsWith (s t : String) : Bool := listStartsWith s.data t.data

/-- Go slicing `s[n:]` (ASCII inputs). -/
def goDropChars (n : Nat) (s : String) : String := String.mk (s.data.drop n)

/-- Go `strings.ToLower` (ASCII inputs). -/
def goToLower (s : String) : String := String.mk (s.data.map Char.toLower)

/-- Go `strings.Count s t` for non-empty `t`: number of non-overlapping
occurrences.  The `fuel` argument makes the recursion structural; every
recursive call strictly shortens the haystack, so `fuel = s.length`
always suffices. -/
def countSubFuel : Nat → List Char → List Char → Nat
  | 0, _, _ => 0
  | fuel + 1, t, s =>
    match s with
    | [] => 0
    | c :: s' =>
      if listStartsWith (c :: s') t then
        1 + countSubFuel fuel t (s'.drop (t.length - 1))
      else countSubFuel fuel t s'

/-- Go `strings.Count` (needle `t` non-empty in all uses here). -/
def goCount (s t : String) : Nat := countSubFuel s.data.length t.data s.data

/-- Go `strings.Split` on a one-character separator. -/
def splitOnCharList (sep : Char) : List Char → List (List Char)
  | [] => [[]]
  | c :: rest =>
    let r := splitOnCharList sep rest
    if c == sep then [] :: r
    else
      match r with
      | h :: t => (c :: h) :: t
      | [] => [[c]]

/-- Go `strings.Split` on a one-character separator, over `String`. -/
def goSplit (s : String) (sep : Char) : List String :=
  (splitOnCharList sep s.data).map String.mk

/-- Go `fmt.Sprintf` restricted to `%s` verbs, substituting arguments in
order. -/
def sprintfList : List Char → List String → List Char
  | [], _ => []
  | '%' :: 's' :: rest, a :: args => a.data ++ sprintfList rest args
  | '%' :: 's' :: rest, [] => '%' :: 's' :: sprintfList rest []
  | c :: rest, args => c :: sprintfList rest args

/-- Go `fmt.Sprintf` with only `%s` verbs. -/
def goSprintf (format : String) (args : List String) : String :=
  String.mk (sprintfList format.data args)

/-- Split a character list at the first occurrence of `t`, returning the
part before and the part after the occurrence. -/
def breakAtSub (t : List Char) : List Char → Option (List Char × List Char)
  | [] => none
  | c :: s =>
    if listStartsWith (c :: s) t then some ([], (c :: s).drop t.length)
    else
      match breakAtSub t s with
      | some (pre, post) => some (c :: pre, post)
      | none => none

/-- Scheme of a URL as `net/url.Parse` reports it for the
`scheme://host/path` shapes the resolver handles; `""` when the input has
no `://`. -/
def goURLScheme (u : String) : String :=
  match breakAtSub "://".data u.data with
  | none => ""
  | some (pre, _) => String.mk pre

/-- Host (including any port) of a `scheme://host/path` URL. -/
def goURLHost (u : String) : String :=
  match breakAtSub "://".data u.data with
  | none => ""
  | some (_, rest) => String.mk (rest.takeWhile (fun c => c ≠ '/'))

/-- Path of a `scheme://host/path` URL (for inputs without `://`,
`net/url.Parse` puts the whole string in `.Path`, which is what the
resolver observes for scheme-less input). -/
def goURLPath (u : String) : String :=
  match breakAtSub "://".data u.data with
  | none => u
  | some (_, rest) => String.mk (rest.dropWhile (fun c => c ≠ '/'))

/-- Uppercase hexadecimal digit, for percent-encoding. -/
def hexDigit (n : Nat) : Char :=
  if n < 10 then Char.ofNat (48 + n) else Char.ofNat (55 + n)

/-- Go `url.QueryEscape` on one ASCII character. -/
def queryEscapeChar (c : Char) : List Char :=
  if c.isAlphanum || c == '-' || c == '_' || c == '.' || c == '~' then [c]
  else if c == ' ' then ['+']
  else ['%', hexDigit (c.toNat / 16), hexDigit (c.toNat % 16)]

/-- Go `url.QueryEscape` (ASCII inputs). -/
def queryEscape (s : String) : String :=
  String.mk (s.data.flatMap queryEscapeChar)

/-! ANSI escape stripping (`helpers.go`, `removeANSIEscapeCodes`)

The Go source strips every match of the regular expression
`\x1b\[[0-9;]*[a-zA-Z]` from the byte slice before JSON-decoding it. -/

/-- Characters allowed in the middle of an ANSI escape sequence
(`[0-9;]`). -/
def isAnsiMid (c : Char) : Bool := c.isDigit || c == ';'

/-- ASCII letter (`[a-zA-Z]`). -/
def isAsciiLetter (c : Char) : Bool :=
  ('a' ≤ c && c ≤ 'z') || ('A' ≤ c && c ≤ 'Z')

/-- One pass of `regexp.ReplaceAll` for the pattern
`\x1b\[[0-9;]*[a-zA-Z]`: left-to-right scan deleting each match (a
failed match restarts one character later, as the regex engine does).
The `fuel` argument makes the recursion structural; every recursive call
strictly shortens the list, so `fuel = s.length` always suffices. -/
def stripAnsiFuel : Nat → List Char → List Char
  | 0, s => s
  | fuel + 1, s =>
    match s with
    | [] => []
    | c :: rest =>
      if c = '\x1b' then
        match rest with
        | '[' :: rest2 =>
          match rest2.dropWhile isAnsiMid with
          | a :: rest3 =>
            if isAsciiLetter a then stripAnsiFuel fuel rest3
            else c :: stripAnsiFuel fuel ('[' :: rest2)
          | [] => c :: stripAnsiFuel fuel ('[' :: rest2)
        | other => c :: stripAnsiFuel fuel other
      else c :: stripAnsiFuel fuel rest

/-- Embedding of `removeANSIEscapeCodes` from `helpers.go`. -/
def removeANSIEscapeCodes (s : String) : String :=
  String.mk (stripAnsiFuel s.data.length s.data)

/-! JSON values (Go `map[string]interface{}` / `gjson` views) -/

/-- Decoded JSON values, the image of `encoding/json.Unmarshal` into
`interface{}`. -/
inductive Json where
  | str : String → Json
  | num : Int → Json
  | bool : Bool → Json
  | null : Json
  | arr : List Json → Json
  | obj : List (String × Json) → Json
deriving Repr

/-- A decoded `map[string]interface{}` object body. -/
abbrev JsonObj := List (String × Json)

/-- Go map lookup `data[k]` on a decoded object. -/
def jlookup (o : JsonObj) (k : String) : Option Json :=
  (o.find? (fun p => p.1 == k)).map (·.2)

/-- Embedding of `gjson` `.String()` on a lookup result: the string itself for string
values, textual form for numbers and booleans, `""` when the value is
missing or `null` (array/object stringification is never exercised by the
resolver and is modelled as `""`). -/
def gjsonString : Option Json → String
  | some (.str s) => s
  | some (.num n) => toString n
  | some (.bool b) => if b then "true" else "false"
  | _ => ""

/-- Embedding of `gjson` path `k1.k2` over a decoded object. -/
def gjsonGet2 (o : JsonObj) (k1 k2 : String) : Option Json :=
  match jlookup o k1 with
  | some (.obj o2) => jlookup o2 k2
  | _ => none

/-- Embedding of `gjson` path `k1.i.k2` (array index) over a decoded object. -/
def gjsonGetIdx (o : JsonObj) (k1 : String) (i : Nat) (k2 : String) : Option Json :=
  match jlookup o k1 with
  | some (.arr l) =>
    match l.get? i with
    | some (.obj o2) => jlookup o2 k2
    | _ => none
  | _ => none

/-! HTTP model -/

/-- An outbound HTTP request as the resolver builds it
(`http.NewRequest` plus explicit `Header.Set` calls; the `Host` header
models `req.URL.Host` handling inside `signRequest`). -/
structure HttpRequest where
  method : String
  url : String
  headers : List (String × String)
  body : Option String
deriving Repr, DecidableEq

/-- A server response: status code, headers, body bytes. -/
structure HttpResponse where
  status : Nat
  headers : List (String × String)
  body : String
deriving Repr, DecidableEq

/-- The observable configuration of an `http.Client` used by the
resolver: its `Timeout` in seconds (`none` = zero value, i.e. no
timeout) and whether it follows redirects automatically (`CheckRedirect`
returning `http.ErrUseLastResponse` disables following). -/
structure ClientConfig where
  timeout : Option Nat
  followRedirects : Bool
deriving Repr, DecidableEq

/-- One issued network operation: which client sent which request. -/
structure Issued where
  client : ClientConfig
  req : HttpRequest
deriving Repr, DecidableEq

/-- Embedding of `Header.Get`: first value for the key, `""` when absent (Go
canonicalises keys; the model uses the canonical spelling throughout). -/
def headerGet (hs : List (String × String)) (k : String) : String :=
  match hs.find? (fun p => p.1 == k) with
  | some p => p.2
  | none => ""

/-- Lookup distinguishing an absent header from an empty one. -/
def headerFind (hs : List (String × String)) (k : String) : Option String :=
  (hs.find? (fun p => p.1 == k)).map (·.2)

/-- Embedding of `Header.Set`: replace any existing value for the key. -/
def headerSet (hs : List (String × String)) (k v : String) : List (String × String) :=
  (k, v) :: hs.filter (fun p => !(p.1 == k))

/-- Apply `headerSet` on a request. -/
def withHeader (req : HttpRequest) (k v : String) : HttpRequest :=
  { req with headers := headerSet req.headers k v }

/-- The shared client built by `NewResolver` (`resolver.go`):
`&http.Client{Timeout: 30 * time.Second}`. -/
def resolverClient : ClientConfig := { timeout := some 30, followRedirects := true }

/-- The throwaway client built inside `fetchActivityPubObjectDirect`
(`helpers.go`): redirects disabled via `CheckRedirect`, and no `Timeout`
field set. -/
def directClient : ClientConfig := { timeout := none, followRedirects := false }

/-- The throwaway client built inside `checkForRedirect`
(`redirect.go`): redirects disabled, no `Timeout`. -/
def redirectCheckClient : ClientConfig := { timeout := none, followRedirects := false }

/-! Constants from `helpers.go` / `resolver.go` -/

/-- Embedding of `UserAgent` constant (`helpers.go`). -/
def UserAgent : String := "FediResolve/1.0 (https://melroy.org)"

/-- Accept header of the unsigned direct fetch
(`fetchActivityPubObjectDirect`). -/
def acceptDirect : String :=
  "application/activity+json, application/ld+json; profile=\"https://www.w3.org/ns/activitystreams\""

/-- Accept header of the signed fetch and of actor fetches. -/
def acceptSigned : String :=
  "application/activity+json, application/ld+json; profile=\"https://www.w3.org/ns/activitystreams\", application/json"

/-- Accept header of the WebFinger fetch. -/
def acceptWebfinger : String := "application/jrd+json, application/json"

/-- The constant empty-body SHA-256 digest set by `signRequest`. -/
def emptyBodyDigest : String := "SHA-256=47DEQpj8HBSa+/TImW+5JCeuQeRkm5NMpJWZG3hSuFU="

/-! HTTP signature signing (`helpers.go`, `signRequest`)

The go-fed `httpsig` signer is third-party code; it is modelled
symbolically: the produced `Signature` header is a string recording the
key id, the algorithm, the covered header list, the expiration window and
the signing string actually covered, mirroring the header `httpsig`
emits. -/

/-- The ephemeral RSA private key (`generateRSAKey`, 2048-bit); modelled
opaquely by its sampled material. -/
structure RSAKey where
  material : Nat
deriving Repr, DecidableEq

/-- Symbolic RSA-SHA256 signature of a signing string under a key. -/
def rsaSha256Sig (key : RSAKey) (toSign : String) : String :=
  "rsa-sha256(" ++ toString key.material ++ "," ++ toSign ++ ")"

/-- Space-separated header list, as it appears inside a `Signature`
header. -/
def joinSpace : List String → String
  | [] => ""
  | [h] => h
  | h :: t => h ++ " " ++ joinSpace t

/-- The signing string for the covered set
`(request-target), host, date, digest`. -/
def signingString (req : HttpRequest) : String :=
  "(request-target): " ++ goToLower req.method ++ " " ++ goURLPath req.url ++ "\n" ++
  "host: " ++ headerGet req.headers "Host" ++ "\n" ++
  "date: " ++ headerGet req.headers "Date" ++ "\n" ++
  "digest: " ++ headerGet req.headers "Digest"

/-- The `Signature` header value produced by the `httpsig` signer. -/
def signatureHeaderValue (keyID : String) (algo : String) (covered : List String)
    (expiresSecs : Nat) (key : RSAKey) (toSign : String) : String :=
  "keyId=\"" ++ keyID ++ "\",algorithm=\"" ++ algo ++ "\",headers=\"" ++
    joinSpace covered ++ "\",expires=" ++ toString expiresSecs ++
    ",signature=\"" ++ rsaSha256Sig key toSign ++ "\""

/-- Model of `httpsig.NewSigner(...).SignRequest`: attach the `Signature`
header for the given algorithm list, covered headers and expiration. -/
def httpsigSign (algos : List String) (covered : List String) (expiresSecs : Nat)
    (privateKey : RSAKey) (keyID : String) (req : HttpRequest) : HttpRequest :=
  withHeader req "Signature"
    (signatureHeaderValue keyID (algos.headD "") covered expiresSecs privateKey
      (signingString req))

/-- The header-completion phase of `signRequest`: ensure `Host` (from
the request URL when absent) and set the constant empty-body `Digest`
when the request has no body.  (`Header.Set` does not touch the body, so
the second test reads `req.body` directly.) -/
def hostDigestPhase (req : HttpRequest) : HttpRequest :=
  if headerGet req.headers "Host" = "" then
    if req.body = none then
      withHeader (withHeader req "Host" (goURLHost req.url)) "Digest" emptyBodyDigest
    else withHeader req "Host" (goURLHost req.url)
  else
    if req.body = none then withHeader req "Digest" emptyBodyDigest
    else req

/-- Embedding of `signRequest` from `helpers.go`: ensure `Host`, set the constant
empty-body `Digest` when there is no body, then sign with RSA-SHA256 over
`(request-target), host, date, digest` with a 300-second (5-minute)
expiration. -/
def signRequest (req : HttpRequest) (keyID : String) (privateKey : RSAKey) : HttpRequest :=
  httpsigSign ["rsa-sha256"] ["(request-target)", "host", "date", "digest"] 300
    privateKey keyID (hostDigestPhase req)

/-! Structured documents decoded by `encoding/json` -/

/-- One entry of `WebFingerResponse.Links` (`resolver.go`). -/
structure WebFingerLink where
  rel : String
  type : String
  href : String
deriving Repr, DecidableEq

/-- Embedding of `WebFingerResponse` (`resolver.go`). -/
structure WebFingerResponse where
  subject : String
  links : List WebFingerLink
deriving Repr

/-- One entry of the NodeInfo discovery document's `links` array
(`helpers.go`, `fetchNodeInfo`). -/
structure NodeInfoLink where
  rel : String
  href : String
deriving Repr, DecidableEq

/-! Environment

The world a resolution runs against: the network oracle plus the
third-party decoders, the clock reading used for the `Date` header, and
the sampled RSA key material. -/

structure Env where
  /-- Embedding of `client.Do` / `client.Get`: `none` models a transport error. -/
  server : HttpRequest → Option HttpResponse
  /-- Embedding of `encoding/json.Unmarshal` into `map[string]interface{}`. -/
  jsonDecode : String → Option JsonObj
  /-- Embedding of `encoding/json.Unmarshal` into `WebFingerResponse`. -/
  decodeWebfinger : String → Option WebFingerResponse
  /-- Embedding of `encoding/json.Unmarshal` into the NodeInfo discovery struct. -/
  decodeNodeLinks : String → Option (List NodeInfoLink)
  /-- Embedding of `time.Now().UTC().Format(http.TimeFormat)`. -/
  now : String
  /-- The key sampled by `generateRSAKey`. -/
  freshKey : RSAKey

/-! Object fetching (`helpers.go`) -/

/-- Outcome of a fetch: raw body bytes plus the decoded object, an error
(Go `error` strings), or exhaustion of the explicit recursion budget —
the Go source has no such budget, so `outOfFuel` at every budget means
the source functions do not terminate. -/
inductive FetchRes where
  | ok : String → JsonObj → FetchRes
  | err : String → FetchRes
  | outOfFuel : FetchRes
deriving Repr

/-- A fetch outcome together with the log of issued requests. -/
structure FetchOut where
  log : List Issued
  res : FetchRes
deriving Repr

/-- Textual form of a status code, standing in for Go's `resp.Status`
(e.g. `"404 Not Found"`; the model keeps just the code digits). -/
def statusText (n : Nat) : String := toString n

/-- The unsigned GET built by `fetchActivityPubObjectDirect`. -/
def directRequest (url : String) : HttpRequest :=
  { method := "GET", url := url,
    headers := [("Accept", acceptDirect), ("User-Agent", UserAgent)],
    body := none }

/-- The GET built by `fetchActorData`. -/
def actorRequest (url : String) : HttpRequest :=
  { method := "GET", url := url,
    headers := [("Accept", acceptSigned), ("User-Agent", UserAgent)],
    body := none }

/-- The to-be-signed GET built by `fetchActivityPubObjectWithSignature`
before `signRequest` runs. -/
def signedBaseRequest (env : Env) (url : String) : HttpRequest :=
  { method := "GET", url := url,
    headers := [("Accept", acceptSigned), ("User-Agent", UserAgent), ("Date", env.now)],
    body := none }

/-- Outcome of `fetchActorData` (`helpers.go`): plain GET through the
shared resolver client, 200 required, body decoded without ANSI
stripping. -/
def fetchActorDataRes (env : Env) (actorURL : String) : Except String JsonObj :=
  match env.server (actorRequest actorURL) with
  | none => .error "error fetching actor data: connection error"
  | some resp =>
    if resp.status ≠ 200 then
      .error ("actor request failed with status: " ++ statusText resp.status)
    else
      match env.jsonDecode resp.body with
      | none => .error "error parsing actor data: invalid JSON"
      | some data => .ok data

/-- Embedding of `fetchActorData` together with its request log (the GET is issued in
every branch). -/
def fetchActorData (env : Env) (actorURL : String) :
    List Issued × Except String JsonObj :=
  ([⟨resolverClient, actorRequest actorURL⟩], fetchActorDataRes env actorURL)

/-- Embedding of `extractPublicKey` (`helpers.go`): `publicKey.id`, falling back to
`publicKey.0.id`; returns the key id together with the placeholder PEM. -/
def extractPublicKey (actorData : JsonObj) : Except String (String × String) :=
  let keyID := gjsonString (gjsonGet2 actorData "publicKey" "id")
  let keyID := if keyID = "" then gjsonString (gjsonGetIdx actorData "publicKey" 0 "id") else keyID
  if keyID = "" then .error "could not find public key ID in actor data"
  else .ok (keyID, "dummy-key")

/-- Key-id discovery inside `fetchActivityPubObjectWithSignature` when
the object carries no usable `attributedTo`: read `publicKey.id` from the
object itself (a non-string `id` hits Go's checked-free type assertion,
modelled as an error). -/
def keyIDFromObject (data : JsonObj) : Except String String :=
  match jlookup data "publicKey" with
  | some (.obj pk) =>
    match jlookup pk "id" with
    | some (.str s) => .ok s
    | some _ => .error "interface conversion: publicKey id is not a string"
    | none => .error "could not find public key ID in object"
  | _ => .error "could not find public key in object"

/-- Is the status one of the redirect codes the source checks for
(302 Found, 301 Moved Permanently, 307 Temporary, 308 Permanent)? -/
def isRedirectStatus (n : Nat) : Bool :=
  n == 302 || n == 301 || n == 307 || n == 308

/-- The key-id discovery step of `fetchActivityPubObjectWithSignature`
(`helpers.go` lines 36–61): via `attributedTo` and an actor fetch when
possible, else from the object's own `publicKey`; returns the requests
it issued alongside the outcome. -/
def keyDiscovery (env : Env) (data : JsonObj) : List Issued × Except String String :=
  match jlookup data "attributedTo" with
  | some (.str actorURL) =>
    if actorURL = "" then ([], keyIDFromObject data)
    else
      match fetchActorDataRes env actorURL with
      | .error e =>
        ((fetchActorData env actorURL).1, .error ("could not fetch actor data: " ++ e))
      | .ok actorData =>
        match extractPublicKey actorData with
        | .error e =>
          ((fetchActorData env actorURL).1, .error ("could not extract public key: " ++ e))
        | .ok (keyID, _) => ((fetchActorData env actorURL).1, .ok keyID)
  | _ => ([], keyIDFromObject data)

/-- The signed GET of `fetchActivityPubObjectWithSignature`
(`helpers.go` lines 69–115): sign, send through the shared client,
require 200 and a non-empty body, ANSI-strip, decode, and return the
*unstripped* raw bytes with the decoded object. -/
def signedSend (env : Env) (objectURL keyID : String) : FetchRes :=
  let sreq := signRequest (signedBaseRequest env objectURL) keyID env.freshKey
  match env.server sreq with
  | none => .err "error sending signed request: connection error"
  | some resp =>
    if resp.status ≠ 200 then
      .err ("signed request failed with status: " ++ statusText resp.status ++
        ", body: " ++ resp.body)
    else if resp.body = "" then
      .err "received empty response body"
    else
      match env.jsonDecode (removeANSIEscapeCodes resp.body) with
      | none => .err "error decoding signed response: invalid JSON"
      | some body => .ok resp.body body

mutual

/-- Embedding of `fetchActivityPubObjectWithSignature` (`helpers.go`): fetch the
object via the direct helper, discover a key id (via `attributedTo` and
an actor fetch, or from the object itself), generate an ephemeral key,
sign, and issue the signed GET through the shared client. -/
def fetchActivityPubObjectWithSignature (env : Env) :
    Nat → String → FetchOut
  | 0, _ => ⟨[], .outOfFuel⟩
  | fuel + 1, objectURL =>
    let d := fetchActivityPubObjectDirect env fuel objectURL
    match d.res with
    | .outOfFuel => ⟨d.log, .outOfFuel⟩
    | .err e => ⟨d.log, .err e⟩
    | .ok _ data =>
      match keyDiscovery env data with
      | (alog, .error e) => ⟨d.log ++ alog, .err e⟩
      | (alog, .ok keyID) =>
        ⟨d.log ++ alog ++
          [⟨resolverClient, signRequest (signedBaseRequest env objectURL) keyID env.freshKey⟩],
          signedSend env objectURL keyID⟩

/-- Embedding of `fetchActivityPubObjectDirect` (`helpers.go`): unsigned GET through a
fresh non-redirect-following client; a redirect status with a non-empty
`Location` re-enters the signed fetch at that header value; otherwise 200
is required and the body is ANSI-stripped and decoded. -/
def fetchActivityPubObjectDirect (env : Env) :
    Nat → String → FetchOut
  | 0, _ => ⟨[], .outOfFuel⟩
  | fuel + 1, objectURL =>
    let req := directRequest objectURL
    let issue : Issued := ⟨directClient, req⟩
    match env.server req with
    | none => ⟨[issue], .err "error fetching content: connection error"⟩
    | some resp =>
      let redirectURL := headerGet resp.headers "Location"
      if isRedirectStatus resp.status && redirectURL ≠ "" then
        let w := fetchActivityPubObjectWithSignature env fuel redirectURL
        ⟨issue :: w.log, w.res⟩
      else if resp.status ≠ 200 then
        ⟨[issue], .err ("request failed with status: " ++ statusText resp.status ++
          ", body: " ++ resp.body)⟩
      else if resp.body = "" then
        ⟨[issue], .err "received empty response body"⟩
      else
        match env.jsonDecode (removeANSIEscapeCodes resp.body) with
        | none => ⟨[issue], .err "error decoding response: invalid JSON"⟩
        | some body => ⟨[issue], .ok resp.body body⟩

end

/-- Embedding of `fetchActivityPubObject` (`resolver.go`): normalise a missing scheme
to `https://` and delegate to the signature-first fetch. -/
def fetchActivityPubObject (env : Env) (fuel : Nat) (objectURL : String) : FetchOut :=
  let objectURL := if goURLScheme objectURL = "" then "https://" ++ objectURL else objectURL
  fetchActivityPubObjectWithSignature env fuel objectURL

/-! Resolution orchestration (`resolver.go`) -/

/-- A resolution outcome: the template URLs handed to
`fetchActivityPubObject` by the cross-instance loop (empty outside that
loop), the request log, and the result. -/
structure ResolveOut where
  tried : List String
  log : List Issued
  res : FetchRes
deriving Repr

/-- Embedding of `urlFormats` from `resolveURL`: the fixed cross-instance template
list (Mastodon ×2, Pleroma, Misskey, Friendica, Hubzilla). -/
def urlFormats : List String :=
  ["https://%s/@%s/%s",
   "https://%s/users/%s/statuses/%s",
   "https://%s/notice/%s",
   "https://%s/notes/%s",
   "https://%s/display/%s",
   "https://%s/item/%s"]

/-- The target URL a template produces: three `%s` verbs take
(domain, username, postID), two take (domain, postID). -/
def templateTarget (format originalDomain username postID : String) : String :=
  if goCount format "%s" = 3 then goSprintf format [originalDomain, username, postID]
  else goSprintf format [originalDomain, postID]

/-- The template loop of `resolveURL`: try each format through the full
object fetcher, stopping at the first success; when every format fails
the surfaced error names the original domain (the 2-second courtesy
sleep between attempts is not modelled). -/
def tryFormats (env : Env) (fuel : Nat) (originalDomain username postID : String) :
    List String → ResolveOut
  | [] => ⟨[], [],
      .err ("failed to fetch content from original instance " ++ originalDomain ++
        ": all URL formats tried")⟩
  | format :: rest =>
    let targetURL := templateTarget format originalDomain username postID
    let f := fetchActivityPubObject env fuel targetURL
    match f.res with
    | .ok raw data => ⟨[targetURL], f.log, .ok raw data⟩
    | .outOfFuel => ⟨[targetURL], f.log, .outOfFuel⟩
    | .err _ =>
      let r := tryFormats env fuel originalDomain username postID rest
      ⟨targetURL :: r.tried, f.log ++ r.log, r.res⟩

/-- The path segment `resolveURL` inspects: the URL path with its
leading `/` stripped. -/
def pathUsername (inputURL : String) : String :=
  let path := goURLPath inputURL
  if goStartsWith path "/" then goDropChars 1 path else path

/-- The cross-instance detection test of `resolveURL`: the first path
segment begins with `@` and contains a second `@`. -/
def isCrossInstancePath (inputURL : String) : Bool :=
  let username := pathUsername inputURL
  goStartsWith username "@" && goContains (goDropChars 1 username) "@"

/-- Embedding of `resolveURL` (`resolver.go`, second revision): detect the
cross-instance URL shape `…/@user@otherHost/postID` and run the template
loop against the original instance, otherwise fetch the URL directly. -/
def resolveURL (env : Env) (fuel : Nat) (inputURL : String) : ResolveOut :=
  let username := pathUsername inputURL
  let direct : ResolveOut :=
    let f := fetchActivityPubObject env fuel inputURL
    ⟨[], f.log, f.res⟩
  if isCrossInstancePath inputURL then
    let parts := goSplit username '/'
    if parts.length ≥ 2 then
      let userParts := goSplit (goDropChars 1 (parts.headD "")) '@'
      if userParts.length = 2 then
        tryFormats env fuel (userParts.getD 1 "") (userParts.headD "")
          (parts.getD 1 "") urlFormats
      else direct
    else direct
  else direct

/-- Rule (a) of the WebFinger actor-link scan in `resolveHandle`
(`resolver.go` lines 433–469): `rel == "self"` with `type` containing
`activity+json`. -/
def isSelfActivityLink (l : WebFingerLink) : Bool :=
  l.rel == "self" && goContains l.type "activity+json"

/-- Rule (b) of the scan: `rel == "self"` regardless of type. -/
def isSelfLink (l : WebFingerLink) : Bool := l.rel == "self"

/-- Rule (c) of the scan: the WebFinger profile-page rel. -/
def isProfilePageLink (l : WebFingerLink) : Bool :=
  l.rel == "http://webfinger.net/rel/profile-page"

/-- The WebFinger actor-link scan of `resolveHandle`: `actorURL` after
the three priority loops — rule (a), then rule (b), then rule (c); a
loop's result is kept only when its first match has a non-empty
`href`. -/
def selectActorURL (links : List WebFingerLink) : String :=
  let a :=
    match links.find? isSelfActivityLink with
    | some l => l.href
    | none => ""
  let b :=
    if a = "" then
      match links.find? isSelfLink with
      | some l => l.href
      | none => ""
    else a
  if b = "" then
    match links.find? isProfilePageLink with
    | some l => l.href
    | none => ""
  else b

/-- The WebFinger GET built by `resolveHandle` (`resolver.go`): the
percent-encoded `acct:` resource against the handle's domain, with the
WebFinger Accept header and the fixed User-Agent. -/
def webfingerRequest (username domain : String) : HttpRequest :=
  { method := "GET",
    url := "https://" ++ domain ++ "/.well-known/webfinger?resource=" ++
      queryEscape ("acct:" ++ username ++ "@" ++ domain),
    headers := [("Accept", acceptWebfinger), ("User-Agent", UserAgent)],
    body := none }

/-- Embedding of `resolveHandle` (`resolver.go`): strip a leading `@`, split on `@`
into username and domain, fetch the WebFinger document through the
shared client, decode it, scan the links, then fetch the selected actor
URL. -/
def resolveHandle (env : Env) (fuel : Nat) (handle : String) :
    List Issued × FetchRes :=
  let handle1 := if goStartsWith handle "@" then goDropChars 1 handle else handle
  let parts := goSplit handle1 '@'
  if parts.length ≠ 2 then ([], .err ("invalid handle format: " ++ handle1))
  else
    let username := parts.headD ""
    let domain := parts.getD 1 ""
    let req : HttpRequest := webfingerRequest username domain
    let issue : Issued := ⟨resolverClient, req⟩
    match env.server req with
    | none => ([issue], .err "error fetching WebFinger data: connection error")
    | some resp =>
      if resp.status ≠ 200 then
        ([issue], .err ("WebFinger request failed with status: " ++ statusText resp.status))
      else
        match env.decodeWebfinger resp.body with
        | none => ([issue], .err "error decoding WebFinger response: invalid JSON")
        | some webfinger =>
          let actorURL := selectActorURL webfinger.links
          if actorURL = "" then
            ([issue], .err "could not find any suitable URL in WebFinger response")
          else
            let f := fetchActivityPubObject env fuel actorURL
            (issue :: f.log, f.res)

/-! NodeInfo (`helpers.go`, `fetchNodeInfo`) -/

/-- Go `strings.HasSuffix`. -/
def goEndsWith (s t : String) : Bool :=
  listStartsWith s.data.reverse t.data.reverse

/-- A discovery link advertising NodeInfo schema 2.1
(`strings.HasSuffix(link.Rel, "/schema/2.1")`). -/
def isSchema21Link (l : NodeInfoLink) : Bool := goEndsWith l.rel "/schema/2.1"

/-- A discovery link advertising NodeInfo schema 2.0. -/
def isSchema20Link (l : NodeInfoLink) : Bool := goEndsWith l.rel "/schema/2.0"

/-- The schema-selection scan of `fetchNodeInfo`: the first link whose
`rel` ends in `/schema/2.1`, else the first whose `rel` ends in
`/schema/2.0`; as in the source, a selected empty `href` falls through. -/
def selectNodeInfoHref (links : List NodeInfoLink) : String :=
  let h :=
    match links.find? isSchema21Link with
    | some l => l.href
    | none => ""
  if h = "" then
    match links.find? isSchema20Link with
    | some l => l.href
    | none => ""
  else h

/-- The discovery GET of `fetchNodeInfo`, issued with `client.Get`
(no custom headers are set on it). -/
def nodeInfoDiscoveryRequest (domain : String) : HttpRequest :=
  { method := "GET", url := "https://" ++ domain ++ "/.well-known/nodeinfo",
    headers := [], body := none }

/-- The versioned-document GET of `fetchNodeInfo`, also `client.Get`. -/
def nodeInfoVersionedRequest (href : String) : HttpRequest :=
  { method := "GET", url := href, headers := [], body := none }

/-- Embedding of `fetchNodeInfo` (`helpers.go`): two-step discovery through the shared
client; on success returns the raw versioned document and its decoding. -/
def fetchNodeInfo (env : Env) (domain : String) :
    List Issued × Except String (String × JsonObj) :=
  let req := nodeInfoDiscoveryRequest domain
  let issue : Issued := ⟨resolverClient, req⟩
  match env.server req with
  | none => ([issue], .error "error fetching nodeinfo discovery: connection error")
  | some resp =>
    if resp.status ≠ 200 then
      ([issue], .error ("nodeinfo discovery failed with status: " ++ statusText resp.status))
    else
      match env.decodeNodeLinks resp.body with
      | none => ([issue], .error "error parsing nodeinfo discovery: invalid JSON")
      | some links =>
        let nodeinfoHref := selectNodeInfoHref links
        if nodeinfoHref = "" then
          ([issue], .error "no nodeinfo schema 2.1 or 2.0 found")
        else
          let req2 := nodeInfoVersionedRequest nodeinfoHref
          let issue2 : Issued := ⟨resolverClient, req2⟩
          match env.server req2 with
          | none => ([issue, issue2], .error "error fetching nodeinfo: connection error")
          | some resp2 =>
            if resp2.status ≠ 200 then
              ([issue, issue2],
                .error ("nodeinfo fetch failed with status: " ++ statusText resp2.status))
            else
              match env.jsonDecode resp2.body with
              | none => ([issue, issue2], .error "error parsing nodeinfo: invalid JSON")
              | some nodeinfo => ([issue, issue2], .ok (resp2.body, nodeinfo))

/-! Redirect probing (`redirect.go`, `checkForRedirect`) -/

/-- The browser-like GET built inside `checkForRedirect`. -/
def redirectCheckRequest (url : String) : HttpRequest :=
  { method := "GET", url := url,
    headers := [("User-Agent", UserAgent),
                ("Accept", "text/html,application/xhtml+xml,application/xml")],
    body := none }

/-- Embedding of `url.ResolveReference` for a reference beginning with `/`: the
reference replaces the base URL's path. -/
def resolveRelativeLocation (base rel : String) : String :=
  goURLScheme base ++ "://" ++ goURLHost base ++ rel

/-- The bounded redirect-following loop of `checkForRedirect` (at most
10 hops; a relative `Location` starting with `/` is resolved against the
current URL). -/
def checkForRedirectLoop (env : Env) :
    Nat → String → List Issued → List Issued × Except String String
  | 0, currentURL, acc => (acc.reverse, .ok currentURL)
  | i + 1, currentURL, acc =>
    let req := redirectCheckRequest currentURL
    let issue : Issued := ⟨redirectCheckClient, req⟩
    match env.server req with
    | none => ((issue :: acc).reverse, .error "error checking for redirects: connection error")
    | some resp =>
      let redirectURL := headerGet resp.headers "Location"
      if isRedirectStatus resp.status && redirectURL ≠ "" then
        let resolved :=
          if goStartsWith redirectURL "/" then resolveRelativeLocation currentURL redirectURL
          else redirectURL
        checkForRedirectLoop env i resolved (issue :: acc)
      else ((issue :: acc).reverse, .ok currentURL)

/-- Embedding of `checkForRedirect` (`redirect.go`): follow up to 10 redirects and
report the final URL when it differs from the input (`""` otherwise). -/
def checkForRedirect (env : Env) (inputURL : String) :
    List Issued × Except String String :=
  match checkForRedirectLoop env 10 inputURL [] with
  | (log, .ok currentURL) =>
    (log, .ok (if currentURL ≠ inputURL then currentURL else ""))
  | (log, .error e) => (log, .error e)

/-! Header-map lemmas -/

theorem find?_filter_ne (t : List (String × String)) (k k' : String)
    (h : (k' == k) = false) :
    (t.filter (fun p => !(p.1 == k))).find? (fun p => p.1 == k') =
      t.find? (fun p => p.1 == k') := by
  induction t with
  | nil => rfl
  | cons p t ih =>
    by_cases hp : (p.1 == k) = true
    · have hpk : p.1 = k := eq_of_beq hp
      have hpk' : (p.1 == k') = false := by
        rw [hpk]
        cases hkk : (k == k') with
        | false => rfl
        | true =>
          have hk : k = k' := eq_of_beq hkk
          subst hk
          simp at h
      simp [List.filter_cons, hp, List.find?_cons, hpk', ih]
    · have hp' : (p.1 == k) = false := by revert hp; cases p.1 == k <;> simp
      cases hpk' : (p.1 == k') with
      | true => simp [List.filter_cons, hp', List.find?_cons, hpk']
      | false => simp [List.filter_cons, hp', List.find?_cons, hpk', ih]

theorem headerFind_set_self (hs : List (String × String)) (k v : String) :
    headerFind (headerSet hs k v) k = some v := by
  simp [headerFind, headerSet, List.find?_cons]

theorem headerFind_set_other (hs : List (String × String)) (k v k' : String)
    (h : k' ≠ k) :
    headerFind (headerSet hs k v) k' = headerFind hs k' := by
  have hb : (k' == k) = false := by
    cases hkk : (k == k') with
    | true => exact absurd (eq_of_beq hkk).symm h
    | false =>
      cases hk'k : (k' == k) with
      | true => exact absurd (eq_of_beq hk'k) h
      | false => rfl
  have hkk' : (k == k') = false := by
    cases hkk : (k == k') with
    | true => exact absurd (eq_of_beq hkk).symm h
    | false => rfl
  simp [headerFind, headerSet, List.find?_cons, hkk', find?_filter_ne _ _ _ hb]

theorem headerGet_eq_find (hs : List (String × String)) (k : String) :
    headerGet hs k = (headerFind hs k).getD "" := by
  unfold headerGet headerFind
  cases hs.find? (fun p => p.1 == k) <;> rfl

/-! Frame lemmas about `signRequest` -/

theorem hostDigestPhase_frame (req : HttpRequest) :
    (hostDigestPhase req).method = req.method ∧
    (hostDigestPhase req).url = req.url ∧
    (hostDigestPhase req).body = req.body ∧
    ∀ k, k ≠ "Host" → k ≠ "Digest" →
      headerFind (hostDigestPhase req).headers k = headerFind req.headers k := by
  unfold hostDigestPhase withHeader
  split <;> split <;>
    refine ⟨rfl, rfl, rfl, fun k hH hD => ?_⟩ <;>
    simp only [headerFind_set_other _ _ _ _ hD, headerFind_set_other _ _ _ _ hH]

theorem signRequest_frame (req : HttpRequest) (keyID : String) (key : RSAKey) :
    (signRequest req keyID key).method = req.method ∧
    (signRequest req keyID key).url = req.url ∧
    (signRequest req keyID key).body = req.body ∧
    ∀ k, k ≠ "Host" → k ≠ "Digest" → k ≠ "Signature" →
      headerFind (signRequest req keyID key).headers k = headerFind req.headers k := by
  have h := hostDigestPhase_frame req
  unfold signRequest httpsigSign withHeader
  refine ⟨h.1, h.2.1, h.2.2.1, fun k hH hD hS => ?_⟩
  simp only [headerFind_set_other _ _ _ _ hS]
  exact h.2.2.2 k hH hD

/-! Selector lemmas -/

theorem selectActorURL_ruleA (links : List WebFingerLink) (l : WebFingerLink)
    (hfind : links.find? isSelfActivityLink = some l) (hhref : l.href ≠ "") :
    selectActorURL links = l.href := by
  simp [selectActorURL, hfind, hhref]

theorem selectActorURL_none (links : List WebFingerLink)
    (h : ∀ l ∈ links, isSelfActivityLink l = false ∧ isSelfLink l = false ∧
      isProfilePageLink l = false) :
    selectActorURL links = "" := by
  have hA : links.find? isSelfActivityLink = none :=
    List.find?_eq_none.mpr (fun l hl => by simp [(h l hl).1])
  have hB : links.find? isSelfLink = none :=
    List.find?_eq_none.mpr (fun l hl => by simp [(h l hl).2.1])
  have hC : links.find? isProfilePageLink = none :=
    List.find?_eq_none.mpr (fun l hl => by simp [(h l hl).2.2])
  simp [selectActorURL, hA, hB, hC]

theorem selectNodeInfoHref_21 (links : List NodeInfoLink) (l : NodeInfoLink)
    (hfind : links.find? isSchema21Link = some l) (hhref : l.href ≠ "") :
    selectNodeInfoHref links = l.href := by
  simp [selectNodeInfoHref, hfind, hhref]

theorem selectNodeInfoHref_20 (links : List NodeInfoLink) (l : NodeInfoLink)
    (h21 : links.find? isSchema21Link = none)
    (hfind : links.find? isSchema20Link = some l) :
    selectNodeInfoHref links = l.href := by
  simp [selectNodeInfoHref, h21, hfind]

theorem selectNodeInfoHref_none (links : List NodeInfoLink)
    (h : ∀ l ∈ links, isSchema21Link l = false ∧ isSchema20Link l = false) :
    selectNodeInfoHref links = "" := by
  have h21 : links.find? isSchema21Link = none :=
    List.find?_eq_none.mpr (fun l hl => by simp [(h l hl).1])
  have h20 : links.find? isSchema20Link = none :=
    List.find?_eq_none.mpr (fun l hl => by simp [(h l hl).2])
  simp [selectNodeInfoHref, h21, h20]

/-! Concrete environments used by counterexamples and witnesses -/

/-- An environment in which every network operation fails at the
transport layer and nothing decodes. -/
def envAllFail : Env :=
  { server := fun _ => none,
    jsonDecode := fun _ => none,
    decodeWebfinger := fun _ => none,
    decodeNodeLinks := fun _ => none,
    now := "Tue, 01 Apr 2025 12:00:00 GMT",
    freshKey := ⟨7⟩ }

/-- A WebFinger document whose links match none of the three selection
rules. -/
def wfNoMatchDoc : WebFingerResponse :=
  { subject := "acct:bob@b.example",
    links := [⟨"author", "text/html", "https://b.example/about"⟩] }

/-- Environment serving a WebFinger document with no usable link for
`@bob@b.example`. -/
def envWFNoMatch : Env :=
  { envAllFail with
    server := fun req =>
      if req.url = (webfingerRequest "bob" "b.example").url then
        some ⟨200, [], "WF"⟩
      else none,
    decodeWebfinger := fun s => if s = "WF" then some wfNoMatchDoc else none }

/-- A NodeInfo discovery document advertising neither schema 2.1 nor
2.0. -/
def envNINoSchema : Env :=
  { envAllFail with
    server := fun req =>
      if req.url = "https://ni.example/.well-known/nodeinfo" then
        some ⟨200, [], "NI"⟩
      else none,
    decodeNodeLinks := fun s =>
      if s = "NI" then some [⟨"http://nodeinfo.diaspora.software/ns/schema/1.0", "https://ni.example/nodeinfo/1.0"⟩]
      else none }

/-! C3 — WebFinger link selection -/

/-- Links exhibiting the empty-`href` fallthrough: a `rel=self`
activity+json link with empty `href` next to a profile-page link. -/
def c3Links : List WebFingerLink :=
  [⟨"self", "application/activity+json", ""⟩,
   ⟨"http://webfinger.net/rel/profile-page", "text/html", "https://ex.example/profile"⟩]

/-- C3, counterexample.  The claim says that for *every* document
containing both a profile-page link and a `rel=self` activity+json link
the latter is selected.  On `c3Links` the first (and only) rule-(a)
match is the self link with empty `href`, yet the scan returns the
profile-page link's `href`: the source keeps a loop's result only when
the matched `href` is non-empty, so the claim as stated is false. -/
theorem claim3_counterexample :
    c3Links.find? isSelfActivityLink = some ⟨"self", "application/activity+json", ""⟩ ∧
    (c3Links.find? isProfilePageLink).isSome = true ∧
    selectActorURL c3Links = "https://ex.example/profile" := by
  decide

/-- C3 (amended).  WebFinger link selection is a deterministic
first-match-wins scan with priority (a) `rel == "self"` and `type`
containing `activity+json`, (b) `rel == "self"` with any type, (c) the
profile-page rel, where a matched link is kept only if its `href` is
non-empty: (1) whenever the first rule-(a) match has a non-empty `href`
it is selected (in particular in every document that also contains a
profile-page link); (2) a document matching none of the three rules
selects nothing; and (3) on such a document `resolveHandle` fails with
the no-actor-link error after issuing only the WebFinger request. -/
theorem claim3_webfinger_link_selection :
    (∀ (links : List WebFingerLink) (l : WebFingerLink),
      links.find? isSelfActivityLink = some l → l.href ≠ "" →
      selectActorURL links = l.href) ∧
    (∀ (links : List WebFingerLink),
      (∀ l ∈ links, isSelfActivityLink l = false ∧ isSelfLink l = false ∧
        isProfilePageLink l = false) →
      selectActorURL links = "") ∧
    (∀ (env : Env) (fuel : Nat) (handle user domain : String) (resp : HttpResponse)
      (doc : WebFingerResponse),
      goSplit (if goStartsWith handle "@" then goDropChars 1 handle else handle) '@' = [user, domain] →
      env.server (webfingerRequest user domain) = some resp →
      resp.status = 200 →
      env.decodeWebfinger resp.body = some doc →
      (∀ l ∈ doc.links, isSelfActivityLink l = false ∧ isSelfLink l = false ∧
        isProfilePageLink l = false) →
      resolveHandle env fuel handle =
        ([⟨resolverClient, webfingerRequest user domain⟩],
          .err "could not find any suitable URL in WebFinger response")) := by
  refine ⟨selectActorURL_ruleA, selectActorURL_none, ?_⟩
  intro env fuel handle user domain resp doc hsplit hserver hstatus hdecode hnone
  have hsel := selectActorURL_none doc.links hnone
  simp [resolveHandle, hsplit, hserver, hstatus, hdecode, hsel]

/-- C3, witness.  Concrete instances of the amended theorem: a
document with both link kinds (rule-(a) link first matched, non-empty
`href`) selects the self link, and a no-match document makes
`resolveHandle` fail with the no-actor-link error. -/
theorem claim3_witness :
    selectActorURL
      [⟨"http://webfinger.net/rel/profile-page", "text/html", "https://b.example/@bob"⟩,
       ⟨"self", "application/activity+json", "https://b.example/actor"⟩] =
      "https://b.example/actor" ∧
    resolveHandle envWFNoMatch 1 "@bob@b.example" =
      ([⟨resolverClient, webfingerRequest "bob" "b.example"⟩],
        .err "could not find any suitable URL in WebFinger response") :=
  ⟨claim3_webfinger_link_selection.1
      [⟨"http://webfinger.net/rel/profile-page", "text/html", "https://b.example/@bob"⟩,
       ⟨"self", "application/activity+json", "https://b.example/actor"⟩]
      ⟨"self", "application/activity+json", "https://b.example/actor"⟩
      (by decide) (by decide),
   claim3_webfinger_link_selection.2.2 envWFNoMatch 1 "@bob@b.example" "bob" "b.example"
     ⟨200, [], "WF"⟩ wfNoMatchDoc (by decide) (by rfl) rfl (by rfl) (by decide)⟩

/-! C5 — NodeInfo schema selection -/

/-- Discovery links exhibiting the empty-`href` fallthrough: a 2.1 link
with empty `href` next to a 2.0 link. -/
def c5Links : List NodeInfoLink :=
  [⟨"http://nodeinfo.diaspora.software/ns/schema/2.1", ""⟩,
   ⟨"http://nodeinfo.diaspora.software/ns/schema/2.0", "https://h.example/nodeinfo/2.0"⟩]

/-- C5, counterexample.  The claim says the selected href is the
first `/schema/2.1` link whenever one exists.  On `c5Links` a 2.1 link
exists (with empty `href`), yet the 2.0 href is selected, because the
source keeps the 2.1 scan's result only when the matched `href` is
non-empty. -/
theorem claim5_counterexample :
    (c5Links.find? isSchema21Link).isSome = true ∧
    selectNodeInfoHref c5Links = "https://h.example/nodeinfo/2.0" := by
  decide

/-- C5 (amended).  NodeInfo discovery selects the first link whose
`rel` ends in `/schema/2.1` provided its `href` is non-empty (even when
a 2.0 link is also present); otherwise the first link whose `rel` ends
in `/schema/2.0`; when neither suffix occurs in any link,
`fetchNodeInfo` fails with the unsupported-schema error after issuing
only the discovery request — no second fetch happens. -/
theorem claim5_nodeinfo_schema_selection :
    (∀ (links : List NodeInfoLink) (l : NodeInfoLink),
      links.find? isSchema21Link = some l → l.href ≠ "" →
      selectNodeInfoHref links = l.href) ∧
    (∀ (links : List NodeInfoLink) (l : NodeInfoLink),
      links.find? isSchema21Link = none →
      links.find? isSchema20Link = some l →
      selectNodeInfoHref links = l.href) ∧
    (∀ (env : Env) (domain : String) (resp : HttpResponse) (links : List NodeInfoLink),
      env.server (nodeInfoDiscoveryRequest domain) = some resp →
      resp.status = 200 →
      env.decodeNodeLinks resp.body = some links →
      (∀ l ∈ links, isSchema21Link l = false ∧ isSchema20Link l = false) →
      fetchNodeInfo env domain =
        ([⟨resolverClient, nodeInfoDiscoveryRequest domain⟩],
          .error "no nodeinfo schema 2.1 or 2.0 found")) := by
  refine ⟨selectNodeInfoHref_21, selectNodeInfoHref_20, ?_⟩
  intro env domain resp links hserver hstatus hdecode hnone
  have hsel := selectNodeInfoHref_none links hnone
  simp [fetchNodeInfo, hserver, hstatus, hdecode, hsel]

/-- C5, witness.  Concrete instances of the amended theorem: 2.1
wins over 2.0 when its `href` is non-empty, and a discovery document
with neither suffix yields the unsupported-schema error with exactly one
issued request. -/
theorem claim5_witness :
    selectNodeInfoHref
      [⟨"http://nodeinfo.diaspora.software/ns/schema/2.0", "https://h.example/nodeinfo/2.0"⟩,
       ⟨"http://nodeinfo.diaspora.software/ns/schema/2.1", "https://h.example/nodeinfo/2.1"⟩] =
      "https://h.example/nodeinfo/2.1" ∧
    fetchNodeInfo envNINoSchema "ni.example" =
      ([⟨resolverClient, nodeInfoDiscoveryRequest "ni.example"⟩],
        .error "no nodeinfo schema 2.1 or 2.0 found") :=
  ⟨claim5_nodeinfo_schema_selection.1
      [⟨"http://nodeinfo.diaspora.software/ns/schema/2.0", "https://h.example/nodeinfo/2.0"⟩,
       ⟨"http://nodeinfo.diaspora.software/ns/schema/2.1", "https://h.example/nodeinfo/2.1"⟩]
      ⟨"http://nodeinfo.diaspora.software/ns/schema/2.1", "https://h.example/nodeinfo/2.1"⟩
      (by decide) (by decide),
   claim5_nodeinfo_schema_selection.2.2 envNINoSchema "ni.example" ⟨200, [], "NI"⟩
     [⟨"http://nodeinfo.diaspora.software/ns/schema/1.0", "https://ni.example/nodeinfo/1.0"⟩]
     (by rfl) rfl (by rfl) (by decide)⟩

/-! C7 — signing is header-only -/

theorem signRequest_headers (req : HttpRequest) (keyID : String) (key : RSAKey) :
    (signRequest req keyID key).headers =
      headerSet (hostDigestPhase req).headers "Signature"
        (signatureHeaderValue keyID "rsa-sha256"
          ["(request-target)", "host", "date", "digest"] 300 key
          (signingString (hostDigestPhase req))) := rfl

theorem hostDigestPhase_headers (req : HttpRequest) :
    (hostDigestPhase req).headers =
      if headerGet req.headers "Host" = "" then
        if req.body = none then
          headerSet (headerSet req.headers "Host" (goURLHost req.url)) "Digest" emptyBodyDigest
        else headerSet req.headers "Host" (goURLHost req.url)
      else
        if req.body = none then headerSet req.headers "Digest" emptyBodyDigest
        else req.headers := by
  unfold hostDigestPhase withHeader
  split <;> split <;> rfl

theorem signRequest_host_present (req : HttpRequest) (keyID : String) (key : RSAKey)
    (h : headerGet req.headers "Host" ≠ "") :
    headerFind (signRequest req keyID key).headers "Host" = headerFind req.headers "Host" := by
  have e1 : ∀ (hs : List (String × String)) v,
      headerFind (headerSet hs "Signature" v) "Host" = headerFind hs "Host" :=
    fun hs v => headerFind_set_other hs "Signature" v "Host" (by decide)
  have e2 : ∀ (hs : List (String × String)) v,
      headerFind (headerSet hs "Digest" v) "Host" = headerFind hs "Host" :=
    fun hs v => headerFind_set_other hs "Digest" v "Host" (by decide)
  rw [signRequest_headers, e1, hostDigestPhase_headers, if_neg h]
  by_cases hb : req.body = none
  · rw [if_pos hb, e2]
  · rw [if_neg hb]

theorem signRequest_host_absent (req : HttpRequest) (keyID : String) (key : RSAKey)
    (h : headerGet req.headers "Host" = "") :
    headerGet (signRequest req keyID key).headers "Host" = goURLHost req.url := by
  have e1 : ∀ (hs : List (String × String)) v,
      headerFind (headerSet hs "Signature" v) "Host" = headerFind hs "Host" :=
    fun hs v => headerFind_set_other hs "Signature" v "Host" (by decide)
  have e2 : ∀ (hs : List (String × String)) v,
      headerFind (headerSet hs "Digest" v) "Host" = headerFind hs "Host" :=
    fun hs v => headerFind_set_other hs "Digest" v "Host" (by decide)
  rw [headerGet_eq_find, signRequest_headers, e1, hostDigestPhase_headers, if_pos h]
  by_cases hb : req.body = none
  · rw [if_pos hb, e2, headerFind_set_self]; rfl
  · rw [if_neg hb, headerFind_set_self]; rfl

theorem signRequest_digest (req : HttpRequest) (keyID : String) (key : RSAKey)
    (h : req.body = none) :
    headerGet (signRequest req keyID key).headers "Digest" = emptyBodyDigest := by
  have eSig : ∀ (hs : List (String × String)) v,
      headerFind (headerSet hs "Signature" v) "Digest" = headerFind hs "Digest" :=
    fun hs v => headerFind_set_other hs "Signature" v "Digest" (by decide)
  rw [headerGet_eq_find, signRequest_headers, eSig, hostDigestPhase_headers]
  by_cases hh : headerGet req.headers "Host" = ""
  · rw [if_pos hh, if_pos h, headerFind_set_self]; rfl
  · rw [if_neg hh, if_pos h, headerFind_set_self]; rfl

theorem signRequest_signature (req : HttpRequest) (keyID : String) (key : RSAKey) :
    headerFind (signRequest req keyID key).headers "Signature" =
      some (signatureHeaderValue keyID "rsa-sha256"
        ["(request-target)", "host", "date", "digest"] 300 key
        (signingString (hostDigestPhase req))) := by
  rw [signRequest_headers, headerFind_set_self]

/-- C7.  `signRequest` is header-only: for every request, key id and
private key it leaves the URL, the method and the body unchanged and
touches only the `Host`, `Digest` and `Signature` headers — every other
header keeps its exact value; `Host` is preserved when present and set
from the request URL when absent; the constant empty-body SHA-256
`Digest` is set when the request has no body; and the attached
`Signature` header covers exactly the ordered header set
`(request-target), host, date, digest` under RSA-SHA256 with a
300-second (5-minute) validity window. -/
theorem claim7_signing_is_header_only (req : HttpRequest) (keyID : String) (key : RSAKey) :
    (signRequest req keyID key).url = req.url ∧
    (signRequest req keyID key).method = req.method ∧
    (signRequest req keyID key).body = req.body ∧
    (∀ k, k ≠ "Host" → k ≠ "Digest" → k ≠ "Signature" →
      headerFind (signRequest req keyID key).headers k = headerFind req.headers k) ∧
    (headerGet req.headers "Host" ≠ "" →
      headerFind (signRequest req keyID key).headers "Host" = headerFind req.headers "Host") ∧
    (headerGet req.headers "Host" = "" →
      headerGet (signRequest req keyID key).headers "Host" = goURLHost req.url) ∧
    (req.body = none →
      headerGet (signRequest req keyID key).headers "Digest" = emptyBodyDigest) ∧
    headerFind (signRequest req keyID key).headers "Signature" =
      some (signatureHeaderValue keyID "rsa-sha256"
        ["(request-target)", "host", "date", "digest"] 300 key
        (signingString (hostDigestPhase req))) := by
  have hf := signRequest_frame req keyID key
  exact ⟨hf.2.1, hf.1, hf.2.2.1, hf.2.2.2,
    signRequest_host_present req keyID key,
    signRequest_host_absent req keyID key,
    signRequest_digest req keyID key,
    signRequest_signature req keyID key⟩

/-- The request `fetchActivityPubObjectWithSignature` hands to
`signRequest` in the demonstration below. -/
def c7DemoRequest : HttpRequest :=
  { method := "GET", url := "https://h.example/notes/1",
    headers := [("Accept", acceptSigned), ("User-Agent", UserAgent),
                ("Date", "Tue, 01 Apr 2025 12:00:00 GMT")],
    body := none }

/-- C7, witness.  The theorem applied to a concrete bodyless GET:
URL and method survive, `Accept` is untouched, `Host` is filled from the
URL, the constant empty-body digest is set, and the `Signature` header
has the modelled httpsig shape. -/
theorem claim7_witness :
    (signRequest c7DemoRequest "https://h.example/actor#main-key" ⟨7⟩).url =
      "https://h.example/notes/1" ∧
    (signRequest c7DemoRequest "https://h.example/actor#main-key" ⟨7⟩).method = "GET" ∧
    headerFind (signRequest c7DemoRequest "https://h.example/actor#main-key" ⟨7⟩).headers
      "Accept" = some acceptSigned ∧
    headerGet (signRequest c7DemoRequest "https://h.example/actor#main-key" ⟨7⟩).headers
      "Host" = "h.example" ∧
    headerGet (signRequest c7DemoRequest "https://h.example/actor#main-key" ⟨7⟩).headers
      "Digest" = emptyBodyDigest ∧
    headerFind (signRequest c7DemoRequest "https://h.example/actor#main-key" ⟨7⟩).headers
      "Signature" =
      some (signatureHeaderValue "https://h.example/actor#main-key" "rsa-sha256"
        ["(request-target)", "host", "date", "digest"] 300 ⟨7⟩
        (signingString (hostDigestPhase c7DemoRequest))) := by
  have h := claim7_signing_is_header_only c7DemoRequest "https://h.example/actor#main-key" ⟨7⟩
  exact ⟨h.1, h.2.1.trans (by decide),
    (h.2.2.2.1 "Accept" (by decide) (by decide) (by decide)).trans (by decide),
    (h.2.2.2.2.2.1 (by decide)).trans (by decide),
    h.2.2.2.2.2.2.1 rfl,
    h.2.2.2.2.2.2.2⟩

/-! C1 — canonical-id following -/

/-- An object body as served along the synthetic id chains: its `id`
names the next URL of the chain and it carries a public key so that the
signed fetch succeeds. -/
def chainObj (next : String) : JsonObj :=
  [("id", .str next),
   ("publicKey", .obj [("id", .str "https://h.example/actor#main-key")])]

/-- The distinguishable final object of the 2-step chain. -/
def chainNote : JsonObj :=
  [("id", .str "https://h.example/2"), ("type", .str "Note"),
   ("publicKey", .obj [("id", .str "https://h.example/actor#main-key")])]

/-- Environment serving a chain of 4 `id` redirections:
`/1 ↦ id /2`, `/2 ↦ id /3`, `/3 ↦ id /4`, `/4 ↦ id /5`. -/
def envChain4 : Env :=
  { envAllFail with
    server := fun req =>
      if req.url = "https://h.example/1" then some ⟨200, [], "b1"⟩
      else if req.url = "https://h.example/2" then some ⟨200, [], "b2"⟩
      else if req.url = "https://h.example/3" then some ⟨200, [], "b3"⟩
      else if req.url = "https://h.example/4" then some ⟨200, [], "b4"⟩
      else none,
    jsonDecode := fun s =>
      if s = "b1" then some (chainObj "https://h.example/2")
      else if s = "b2" then some (chainObj "https://h.example/3")
      else if s = "b3" then some (chainObj "https://h.example/4")
      else if s = "b4" then some (chainObj "https://h.example/5")
      else none }

/-- Environment serving a chain of 2 `id` redirections:
`/1`'s object has `id /2`; `/2`'s object (the final object of the chain)
is a `Note` whose `id` is itself. -/
def envChain2 : Env :=
  { envAllFail with
    server := fun req =>
      if req.url = "https://h.example/1" then some ⟨200, [], "b1"⟩
      else if req.url = "https://h.example/2" then some ⟨200, [], "b2"⟩
      else none,
    jsonDecode := fun s =>
      if s = "b1" then some (chainObj "https://h.example/2")
      else if s = "b2" then some chainNote
      else none }

/-- C1, counterexample.  The claim says the orchestrator follows a
decoded object's `id` when it differs from the requested URL, that a
chain of 2 id redirections returns the *final* object, and that a chain
of 4 fails with `CanonicalLoopSuspected`.  The code does none of this:
on the 4-chain the resolution *succeeds* and returns the very first
object (whose `id` differs from the requested URL), and on the 2-chain
it again returns the first object rather than the final `Note`.  No
canonical-id comparison, depth counter or `CanonicalLoopSuspected` error
exists in `resolveURL`/`fetchActivityPubObject`. -/
theorem claim1_counterexample :
    (resolveURL envChain4 10 "https://h.example/1").res =
      .ok "b1" (chainObj "https://h.example/2") ∧
    jlookup (chainObj "https://h.example/2") "id" =
      some (.str "https://h.example/2") ∧
    "https://h.example/2" ≠ "https://h.example/1" ∧
    (resolveURL envChain2 10 "https://h.example/1").res =
      .ok "b1" (chainObj "https://h.example/2") ∧
    (FetchRes.ok "b1" (chainObj "https://h.example/2") ≠ .ok "b2" chainNote) := by
  refine ⟨by rfl, by rfl, by decide, by rfl, ?_⟩
  intro h
  injection h with h1 h2
  exact absurd h1 (by decide)

/-- C1 (amended).  The orchestrator performs no canonical-id
following: for every environment, recursion budget and non-cross-instance
URL, `resolveURL` returns exactly the outcome of the single
`fetchActivityPubObject` call on that URL — whatever the decoded
object's `id` is, the object is returned as fetched; there is no depth-3
bound and no `CanonicalLoopSuspected` error (synthetic id chains of
length 2 and 4 both succeed, yielding the first object). -/
theorem claim1_no_canonical_id_following (env : Env) (fuel : Nat) (inputURL : String)
    (hnc : isCrossInstancePath inputURL = false) :
    resolveURL env fuel inputURL =
      ⟨[], (fetchActivityPubObject env fuel inputURL).log,
        (fetchActivityPubObject env fuel inputURL).res⟩ := by
  simp [resolveURL, hnc]

/-- C1, witness.  The amended theorem at the 2-chain environment:
the non-cross-instance URL `/1` resolves to exactly the single fetch's
outcome. -/
theorem claim1_witness :
    isCrossInstancePath "https://h.example/1" = false ∧
    resolveURL envChain2 10 "https://h.example/1" =
      ⟨[], (fetchActivityPubObject envChain2 10 "https://h.example/1").log,
        (fetchActivityPubObject envChain2 10 "https://h.example/1").res⟩ :=
  ⟨by decide, claim1_no_canonical_id_following envChain2 10 "https://h.example/1" (by decide)⟩

/-! C4 — cross-instance template enumeration -/

/-- The cross-instance input of the failing run. -/
def crossInputURL : String := "https://a.example/@bob@b.example/42"

/-- The six template URLs against the original instance, in source
order. -/
def c4Templates : List String :=
  ["https://b.example/@bob/42",
   "https://b.example/users/bob/statuses/42",
   "https://b.example/notice/42",
   "https://b.example/notes/42",
   "https://b.example/display/42",
   "https://b.example/item/42"]

/-- C4.  On `https://a.example/@bob@b.example/42` with every fetch
failing (`connection error` from the transport), `resolveURL` attempts
exactly the six templates against host `b.example` in order, and the
surfaced error names `b.example` — but, contrary to the claim and to the
source's own comment (`// If all formats fail, return the last error`),
the error is the fixed string `"failed to fetch content from original
instance b.example: all URL formats tried"`, which does not carry the
last per-template error (`"error fetching content: connection error"`). -/
theorem claim4_error_drops_last_template_error :
    (resolveURL envAllFail 5 crossInputURL).tried = c4Templates ∧
    (resolveURL envAllFail 5 crossInputURL).res =
      .err "failed to fetch content from original instance b.example: all URL formats tried" ∧
    (fetchActivityPubObject envAllFail 5 "https://b.example/item/42").res =
      .err "error fetching content: connection error" ∧
    goContains "failed to fetch content from original instance b.example: all URL formats tried"
      "connection error" = false := by
  exact ⟨by rfl, by rfl, by rfl, by decide⟩

/-- Shared stepping lemma: a direct attempt answered with a redirect
status and non-empty `Location` re-enters the signed fetch at the
verbatim header value, prefixing the direct request to the log. -/
theorem fetchDirect_redirect_step
    (env : Env) (fuel : Nat) (url : String) (resp : HttpResponse)
    (hs : env.server (directRequest url) = some resp)
    (hred : isRedirectStatus resp.status = true)
    (hloc : headerGet resp.headers "Location" ≠ "") :
    fetchActivityPubObjectDirect env (fuel + 1) url =
      ⟨⟨directClient, directRequest url⟩ ::
        (fetchActivityPubObjectWithSignature env fuel
          (headerGet resp.headers "Location")).log,
        (fetchActivityPubObjectWithSignature env fuel
          (headerGet resp.headers "Location")).res⟩ := by
  simp [fetchActivityPubObjectDirect, hs, hred, hloc]

/-! C6 — redirect Location handling -/

/-- Environment answering the direct attempt on `/x` with a 302 whose
`Location` is the *relative* reference `/objects/1`. -/
def envRelRedirect : Env :=
  { envAllFail with
    server := fun req =>
      if req.url = "https://h.example/x" then
        some ⟨302, [("Location", "/objects/1")], ""⟩
      else none }

/-- C6, counterexample.  The claim says a relative `Location` is
resolved against the URL being fetched before the signed attempt.  In
the live fetch path it is not: after the 302 the next request goes to
the verbatim header value `/objects/1`, and no request to the resolved
absolute URL `https://h.example/objects/1` is ever issued (the
resolution logic exists only in the never-called `checkForRedirect`). -/
theorem claim6_counterexample :
    ((fetchActivityPubObjectDirect envRelRedirect 5 "https://h.example/x").log.map
      (fun i => i.req.url)) = ["https://h.example/x", "/objects/1"] ∧
    resolveRelativeLocation "https://h.example/x" "/objects/1" =
      "https://h.example/objects/1" ∧
    ((fetchActivityPubObjectDirect envRelRedirect 5 "https://h.example/x").log.all
      (fun i => !(i.req.url == "https://h.example/objects/1"))) = true := by
  exact ⟨by rfl, by rfl, by decide⟩

/-- C6 (amended).  For every direct attempt answered with a redirect
status (301/302/307/308) carrying a non-empty `Location`, the fetcher
re-enters the signed attempt at the verbatim `Location` header value —
relative references are *not* resolved against the current URL (the
resolving code in `checkForRedirect` is dead code on this path). -/
theorem claim6_redirect_reenters_at_location_verbatim
    (env : Env) (fuel : Nat) (url : String) (resp : HttpResponse)
    (hs : env.server (directRequest url) = some resp)
    (hred : isRedirectStatus resp.status = true)
    (hloc : headerGet resp.headers "Location" ≠ "") :
    fetchActivityPubObjectDirect env (fuel + 1) url =
      ⟨⟨directClient, directRequest url⟩ ::
        (fetchActivityPubObjectWithSignature env fuel
          (headerGet resp.headers "Location")).log,
        (fetchActivityPubObjectWithSignature env fuel
          (headerGet resp.headers "Location")).res⟩ :=
  fetchDirect_redirect_step env fuel url resp hs hred hloc

/-- C6, witness.  The amended theorem at the relative-`Location`
environment: the fetch of `/x` re-enters the signed attempt at the
verbatim string `/objects/1`. -/
theorem claim6_witness :
    fetchActivityPubObjectDirect envRelRedirect 5 "https://h.example/x" =
      ⟨⟨directClient, directRequest "https://h.example/x"⟩ ::
        (fetchActivityPubObjectWithSignature envRelRedirect 4 "/objects/1").log,
        (fetchActivityPubObjectWithSignature envRelRedirect 4 "/objects/1").res⟩ :=
  claim6_redirect_reenters_at_location_verbatim envRelRedirect 4 "https://h.example/x"
    ⟨302, [("Location", "/objects/1")], ""⟩ rfl rfl (by decide)

/-! C10 — ANSI stripping before decoding -/

/-- C10.  Both fetch paths strip ANSI escape sequences from the
response body before JSON-decoding it, while returning the original
unstripped bytes: (1) a direct attempt answered 200 with a non-empty
body whose *stripped* form decodes returns the raw body paired with the
decoding of the stripped bytes; (2) likewise for the signed attempt's
response (here stated for an object that carries its own `publicKey`). -/
theorem claim10_ansi_stripped_before_decode :
    (∀ (env : Env) (fuel : Nat) (url : String) (resp : HttpResponse) (v : JsonObj),
      env.server (directRequest url) = some resp →
      resp.status = 200 →
      resp.body ≠ "" →
      env.jsonDecode (removeANSIEscapeCodes resp.body) = some v →
      fetchActivityPubObjectDirect env (fuel + 1) url =
        ⟨[⟨directClient, directRequest url⟩], .ok resp.body v⟩) ∧
    (∀ (env : Env) (fuel : Nat) (url : String) (raw0 : String) (data : JsonObj)
      (keyID : String) (sresp : HttpResponse) (v : JsonObj),
      (fetchActivityPubObjectDirect env fuel url).res = .ok raw0 data →
      jlookup data "attributedTo" = none →
      keyIDFromObject data = .ok keyID →
      env.server (signRequest (signedBaseRequest env url) keyID env.freshKey) = some sresp →
      sresp.status = 200 →
      sresp.body ≠ "" →
      env.jsonDecode (removeANSIEscapeCodes sresp.body) = some v →
      fetchActivityPubObjectWithSignature env (fuel + 1) url =
        ⟨(fetchActivityPubObjectDirect env fuel url).log ++
          [⟨resolverClient, signRequest (signedBaseRequest env url) keyID env.freshKey⟩],
          .ok sresp.body v⟩) := by
  constructor
  · intro env fuel url resp v hs hstatus hbody hdec
    have hred200 : isRedirectStatus 200 = false := rfl
    simp [fetchActivityPubObjectDirect, hs, hstatus, hred200, hbody, hdec]
  · intro env fuel url raw0 data keyID sresp v hres hatt hkey hs hstatus hbody hdec
    simp [fetchActivityPubObjectWithSignature, keyDiscovery, signedSend, hres, hatt, hkey,
      hs, hstatus, hbody, hdec]

/-- The colored body some servers return: ANSI red around a JSON
object. -/
def ansiBody : String := "\x1b[31m\x7b\"publicKey\":\x7b\"id\":\"k\"\x7d\x7d\x1b[0m"

/-- The string `ansiBody` with the two escape sequences removed. -/
def ansiJSON : String := "\x7b\"publicKey\":\x7b\"id\":\"k\"\x7d\x7d"

/-- The decoding of `ansiJSON`. -/
def ansiObjDecoded : JsonObj := [("publicKey", .obj [("id", .str "k")])]

/-- Environment whose server answers `/colored` with the ANSI-wrapped
body and whose JSON decoder accepts exactly the stripped form. -/
def envAnsi : Env :=
  { envAllFail with
    server := fun req =>
      if req.url = "https://h.example/colored" then some ⟨200, [], ansiBody⟩
      else none,
    jsonDecode := fun s => if s = ansiJSON then some ansiObjDecoded else none }

/-- C10, witness.  A body that is valid JSON only after ANSI
stripping: stripping changes the bytes, the raw body itself does not
decode, yet both fetch paths succeed and return the *unstripped* raw
bytes paired with the decoding of the stripped bytes. -/
theorem claim10_witness :
    removeANSIEscapeCodes ansiBody = ansiJSON ∧
    ansiBody ≠ ansiJSON ∧
    envAnsi.jsonDecode ansiBody = none ∧
    fetchActivityPubObjectDirect envAnsi 3 "https://h.example/colored" =
      ⟨[⟨directClient, directRequest "https://h.example/colored"⟩],
        .ok ansiBody ansiObjDecoded⟩ ∧
    fetchActivityPubObjectWithSignature envAnsi 3 "https://h.example/colored" =
      ⟨(fetchActivityPubObjectDirect envAnsi 2 "https://h.example/colored").log ++
        [⟨resolverClient,
          signRequest (signedBaseRequest envAnsi "https://h.example/colored") "k"
            envAnsi.freshKey⟩],
        .ok ansiBody ansiObjDecoded⟩ :=
  ⟨by decide, by decide, by rfl,
   claim10_ansi_stripped_before_decode.1 envAnsi 2 "https://h.example/colored"
     ⟨200, [], ansiBody⟩ ansiObjDecoded rfl rfl (by decide) (by rfl),
   claim10_ansi_stripped_before_decode.2 envAnsi 2 "https://h.example/colored"
     ansiBody ansiObjDecoded "k" ⟨200, [], ansiBody⟩ ansiObjDecoded
     (by rfl) rfl rfl (by rfl) rfl (by decide) (by rfl)⟩

/-! C2 — the fallback recursion is not cycle-bounded -/

/-- A two-node redirect cycle: the direct attempt on `A` is answered
`302 Location: B`, and on `B` with `302 Location: A`. -/
def envCyc : Env :=
  { envAllFail with
    server := fun req =>
      if req.url = "https://a.example/x" then
        some ⟨302, [("Location", "https://b.example/y")], ""⟩
      else if req.url = "https://b.example/y" then
        some ⟨302, [("Location", "https://a.example/x")], ""⟩
      else none }

/-- On the redirect cycle every recursion budget is exhausted: the
mutual recursion `fetchActivityPubObjectDirect` →
`fetchActivityPubObjectWithSignature` → … never leaves the
`A → B → A → …` loop. -/
theorem cyc_out_of_fuel : ∀ n : Nat,
    (fetchActivityPubObjectWithSignature envCyc n "https://a.example/x").res = .outOfFuel ∧
    (fetchActivityPubObjectWithSignature envCyc n "https://b.example/y").res = .outOfFuel ∧
    (fetchActivityPubObjectDirect envCyc n "https://a.example/x").res = .outOfFuel ∧
    (fetchActivityPubObjectDirect envCyc n "https://b.example/y").res = .outOfFuel := by
  intro n
  induction n with
  | zero => exact ⟨rfl, rfl, rfl, rfl⟩
  | succ n ih =>
    refine ⟨?_, ?_, ?_, ?_⟩
    · have hd := ih.2.2.1
      simp [fetchActivityPubObjectWithSignature, hd]
    · have hd := ih.2.2.2
      simp [fetchActivityPubObjectWithSignature, hd]
    · have h := fetchDirect_redirect_step envCyc n "https://a.example/x"
        ⟨302, [("Location", "https://b.example/y")], ""⟩ rfl rfl (by decide)
      rw [h]
      exact ih.2.1
    · have h := fetchDirect_redirect_step envCyc n "https://b.example/y"
        ⟨302, [("Location", "https://a.example/x")], ""⟩ rfl rfl (by decide)
      rw [h]
      exact ih.1

/-- C2, counterexample.  The claim asserts termination of the fetch
operations for *every* pattern of server responses, including redirect
cycles.  On the two-node redirect cycle no recursion budget suffices:
there is no fuel at which the signed fetch of `A` completes, i.e. the Go
functions — which have no budget at all — do not terminate on this
pattern.  Nothing in the source tracks visited URLs or bounds the
direct/signed mutual recursion. -/
theorem claim2_counterexample :
    ¬ ∃ n : Nat,
      (fetchActivityPubObjectWithSignature envCyc n "https://a.example/x").res ≠
        FetchRes.outOfFuel := by
  rintro ⟨n, hn⟩
  exact hn (cyc_out_of_fuel n).1

/-! Request-log characterization (shared by C8 and C9) -/

/-- The three request shapes the object-fetch engine ever issues: the
direct unsigned GET (through the fresh redirect-capturing client), the
actor GET (shared client), and the signed GET (shared client). -/
def coreIssuedShape (env : Env) (i : Issued) : Prop :=
  (∃ u, i = ⟨directClient, directRequest u⟩) ∨
  (∃ u, i = ⟨resolverClient, actorRequest u⟩) ∨
  (∃ u k, i = ⟨resolverClient, signRequest (signedBaseRequest env u) k env.freshKey⟩)

theorem keyDiscovery_log (env : Env) (data : JsonObj) :
    (keyDiscovery env data).1 = [] ∨
    ∃ a, (keyDiscovery env data).1 = [⟨resolverClient, actorRequest a⟩] := by
  unfold keyDiscovery
  split
  · split
    · exact Or.inl rfl
    · split
      · exact Or.inr ⟨_, rfl⟩
      · split
        · exact Or.inr ⟨_, rfl⟩
        · exact Or.inr ⟨_, rfl⟩
  · exact Or.inl rfl

theorem fetch_log_shapes (env : Env) : ∀ n : Nat,
    (∀ url, ∀ i ∈ (fetchActivityPubObjectWithSignature env n url).log,
      coreIssuedShape env i) ∧
    (∀ url, ∀ i ∈ (fetchActivityPubObjectDirect env n url).log,
      coreIssuedShape env i) := by
  intro n
  induction n with
  | zero =>
    refine ⟨fun url i hi => ?_, fun url i hi => ?_⟩ <;>
      simp [fetchActivityPubObjectWithSignature, fetchActivityPubObjectDirect] at hi
  | succ n ih =>
    refine ⟨fun url i hi => ?_, fun url i hi => ?_⟩
    · rcases hres : (fetchActivityPubObjectDirect env n url).res with ⟨raw, data⟩ | e | _
      · rcases hkd : keyDiscovery env data with ⟨alog, res⟩
        have halog : alog = [] ∨ ∃ a, alog = [⟨resolverClient, actorRequest a⟩] := by
          have h := keyDiscovery_log env data
          rw [hkd] at h
          exact h
        rcases res with e | kid
        · simp only [fetchActivityPubObjectWithSignature, hres, hkd] at hi
          rcases List.mem_append.mp hi with h | h
          · exact ih.2 url i h
          · rcases halog with h0 | ⟨a, ha⟩
            · rw [h0] at h
              simp at h
            · rw [ha] at h
              simp at h
              exact Or.inr (Or.inl ⟨a, h⟩)
        · simp only [fetchActivityPubObjectWithSignature, hres, hkd] at hi
          rcases List.mem_append.mp hi with h | h
          · rcases List.mem_append.mp h with h2 | h2
            · exact ih.2 url i h2
            · rcases halog with h0 | ⟨a, ha⟩
              · rw [h0] at h2
                simp at h2
              · rw [ha] at h2
                simp at h2
                exact Or.inr (Or.inl ⟨a, h2⟩)
          · simp at h
            exact Or.inr (Or.inr ⟨url, kid, h⟩)
      · simp only [fetchActivityPubObjectWithSignature, hres] at hi
        exact ih.2 url i hi
      · simp only [fetchActivityPubObjectWithSignature, hres] at hi
        exact ih.2 url i hi
    · simp only [fetchActivityPubObjectDirect] at hi
      split at hi
      · simp at hi
        exact Or.inl ⟨url, by rw [hi]⟩
      · split at hi
        · rcases List.mem_cons.mp hi with h | h
          · exact Or.inl ⟨url, h⟩
          · exact ih.1 _ i h
        · split at hi
          · simp at hi
            exact Or.inl ⟨url, by rw [hi]⟩
          · split at hi
            · simp at hi
              exact Or.inl ⟨url, by rw [hi]⟩
            · split at hi <;> (simp at hi; exact Or.inl ⟨url, by rw [hi]⟩)

theorem fetchNodeInfo_log_shapes (env : Env) (domain : String) :
    ∀ i ∈ (fetchNodeInfo env domain).1,
      i = ⟨resolverClient, nodeInfoDiscoveryRequest domain⟩ ∨
      ∃ href, i = ⟨resolverClient, nodeInfoVersionedRequest href⟩ := by
  intro i hi
  simp only [fetchNodeInfo] at hi
  repeat' split at hi
  all_goals simp at hi
  all_goals try rcases hi with hi | hi
  all_goals try subst hi
  all_goals
    first
      | exact Or.inl rfl
      | exact Or.inr ⟨_, rfl⟩

theorem checkForRedirectLoop_clients (env : Env) : ∀ (n : Nat) (cur : String)
    (acc : List Issued), (∀ i ∈ acc, i.client = redirectCheckClient) →
    ∀ i ∈ (checkForRedirectLoop env n cur acc).1, i.client = redirectCheckClient := by
  intro n
  induction n with
  | zero =>
    intro cur acc hacc i hi
    simp only [checkForRedirectLoop] at hi
    exact hacc i (List.mem_reverse.mp hi)
  | succ n ih =>
    intro cur acc hacc i hi
    simp only [checkForRedirectLoop] at hi
    split at hi
    · rw [List.mem_reverse] at hi
      rcases List.mem_cons.mp hi with h | h
      · rw [h]
      · exact hacc i h
    · split at hi
      · refine ih _ _ (fun j hj => ?_) i hi
        rcases List.mem_cons.mp hj with h | h
        · rw [h]
        · exact hacc j h
      · rw [List.mem_reverse] at hi
        rcases List.mem_cons.mp hi with h | h
        · rw [h]
        · exact hacc i h

/-- C2 (amended).  The recursive fallback control flow is *not*
cycle-bounded: there is a pattern of server responses — a redirect whose
`Location` leads back to an already-visited URL — on which
`fetchActivityPubObject`, `fetchActivityPubObjectWithSignature` and
`fetchActivityPubObjectDirect` all fail to terminate: every recursion
budget `n` is exhausted. -/
theorem claim2_not_cycle_bounded : ∀ n : Nat,
    (fetchActivityPubObject envCyc n "https://a.example/x").res = .outOfFuel ∧
    (fetchActivityPubObjectWithSignature envCyc n "https://a.example/x").res = .outOfFuel ∧
    (fetchActivityPubObjectDirect envCyc n "https://a.example/x").res = .outOfFuel := by
  intro n
  exact ⟨(cyc_out_of_fuel n).1, (cyc_out_of_fuel n).1, (cyc_out_of_fuel n).2.2.1⟩

/-! C8 — User-Agent and Accept headers -/

/-- C8, counterexample.  The claim says *every* outbound request of
the core carries the fixed User-Agent and the Accept header specified
for its protocol.  It fails twice: the NodeInfo fetches are issued with
`client.Get`, which sets neither header (at the wire Go substitutes its
default `Go-http-client` agent, not the fixed identifying string); and
the direct object-fetch attempt sets an Accept (`acceptDirect`) that
differs from the value the spec gives for object fetches
(`acceptSigned`, which ends in `application/json` — the direct attempt
omits that item). -/
theorem claim8_counterexample :
    (fetchNodeInfo envAllFail "h.example").1 =
      [⟨resolverClient, nodeInfoDiscoveryRequest "h.example"⟩] ∧
    headerFind (nodeInfoDiscoveryRequest "h.example").headers "User-Agent" = none ∧
    headerFind (nodeInfoDiscoveryRequest "h.example").headers "Accept" = none ∧
    headerFind (directRequest "https://h.example/x").headers "Accept" =
      some acceptDirect ∧
    acceptDirect ≠ acceptSigned := by
  exact ⟨rfl, rfl, rfl, rfl, by decide⟩

/-- C8 (amended).  Every request issued by the object-fetch engine
carries the fixed `UserAgent` string together with an exact Accept
header determined by its role: the direct attempt carries
`acceptDirect` (which omits the trailing `application/json` item of the
object-fetch Accept the spec states), while the actor and signed GETs
carry `acceptSigned`; the WebFinger request carries the fixed User-Agent
and the WebFinger Accept; but the two NodeInfo fetches (discovery and
versioned document), issued via `client.Get`, carry neither a User-Agent
nor an Accept header. -/
theorem claim8_user_agent_and_accept :
    (∀ (env : Env) (n : Nat) (url : String) (i : Issued),
      (i ∈ (fetchActivityPubObjectWithSignature env n url).log ∨
        i ∈ (fetchActivityPubObjectDirect env n url).log) →
      headerFind i.req.headers "User-Agent" = some UserAgent ∧
      ((∃ u, i = ⟨directClient, directRequest u⟩ ∧
          headerFind i.req.headers "Accept" = some acceptDirect) ∨
        (∃ u, i = ⟨resolverClient, actorRequest u⟩ ∧
          headerFind i.req.headers "Accept" = some acceptSigned) ∨
        (∃ u k, i = ⟨resolverClient, signRequest (signedBaseRequest env u) k env.freshKey⟩ ∧
          headerFind i.req.headers "Accept" = some acceptSigned))) ∧
    (∀ user domain : String,
      headerFind (webfingerRequest user domain).headers "User-Agent" = some UserAgent ∧
      headerFind (webfingerRequest user domain).headers "Accept" = some acceptWebfinger) ∧
    (∀ (env : Env) (domain : String) (i : Issued),
      i ∈ (fetchNodeInfo env domain).1 →
      headerFind i.req.headers "User-Agent" = none ∧
      headerFind i.req.headers "Accept" = none) := by
  refine ⟨?_, fun user domain => ⟨rfl, rfl⟩, ?_⟩
  · intro env n url i hi
    have hshape : coreIssuedShape env i := by
      rcases hi with h | h
      · exact (fetch_log_shapes env n).1 url i h
      · exact (fetch_log_shapes env n).2 url i h
    rcases hshape with ⟨u, rfl⟩ | ⟨u, rfl⟩ | ⟨u, k, rfl⟩
    · exact ⟨rfl, Or.inl ⟨u, rfl, rfl⟩⟩
    · exact ⟨rfl, Or.inr (Or.inl ⟨u, rfl, rfl⟩)⟩
    · refine ⟨?_, Or.inr (Or.inr ⟨u, k, rfl, ?_⟩)⟩
      · show headerFind (signRequest (signedBaseRequest env u) k env.freshKey).headers
          "User-Agent" = some UserAgent
        rw [(signRequest_frame (signedBaseRequest env u) k env.freshKey).2.2.2
          "User-Agent" (by decide) (by decide) (by decide)]
        rfl
      · show headerFind (signRequest (signedBaseRequest env u) k env.freshKey).headers
          "Accept" = some acceptSigned
        rw [(signRequest_frame (signedBaseRequest env u) k env.freshKey).2.2.2
          "Accept" (by decide) (by decide) (by decide)]
        rfl
  · intro env domain i hi
    rcases fetchNodeInfo_log_shapes env domain i hi with h | ⟨href, h⟩ <;>
      (rw [h]; exact ⟨rfl, rfl⟩)

/-- C8, witness.  The amended theorem applied to concrete runs: the
logged direct request of the redirect environment carries the fixed
User-Agent and exactly `acceptDirect`, and the NodeInfo discovery
request of the no-schema environment carries neither header. -/
theorem claim8_witness :
    headerFind (directRequest "https://h.example/x").headers "User-Agent" =
      some UserAgent ∧
    headerFind (directRequest "https://h.example/x").headers "Accept" =
      some acceptDirect ∧
    headerFind (nodeInfoDiscoveryRequest "ni.example").headers "User-Agent" = none ∧
    headerFind (nodeInfoDiscoveryRequest "ni.example").headers "Accept" = none := by
  have h := claim8_user_agent_and_accept.1 envRelRedirect 1 "https://h.example/x"
    ⟨directClient, directRequest "https://h.example/x"⟩ (Or.inr (by decide))
  have h2 := claim8_user_agent_and_accept.2.2 envNINoSchema "ni.example"
    ⟨resolverClient, nodeInfoDiscoveryRequest "ni.example"⟩ (by decide)
  refine ⟨h.1, ?_, h2.1, h2.2⟩
  rcases h.2 with ⟨u, hi, ha⟩ | ⟨u, hi, ha⟩ | ⟨u, k, hi, ha⟩
  · exact ha
  · have hc : directClient = resolverClient := congrArg Issued.client hi
    exact absurd hc (by decide)
  · have hc : directClient = resolverClient := congrArg Issued.client hi
    exact absurd hc (by decide)

/-! C9 — per-request timeouts -/

/-- C9, counterexample.  The claim says every network operation of a
resolution goes through an HTTP client configured with the fixed
30-second timeout.  But the direct (non-redirect-following) attempt and
the redirect check each construct a fresh client with *no* timeout: in a
concrete run the direct request is issued through a client whose
`Timeout` is the zero value. -/
theorem claim9_counterexample :
    (fetchActivityPubObjectDirect envAllFail 1 "https://h.example/x").log =
      [⟨directClient, directRequest "https://h.example/x"⟩] ∧
    directClient.timeout = none ∧
    ¬ directClient.timeout = some 30 ∧
    (checkForRedirect envAllFail "https://h.example/x").1 =
      [⟨redirectCheckClient, redirectCheckRequest "https://h.example/x"⟩] ∧
    redirectCheckClient.timeout = none := by
  exact ⟨rfl, rfl, by decide, rfl, rfl⟩

/-- C9 (amended).  The shared resolver client carries the fixed
30-second timeout, and every request of the object-fetch engine goes
through it or through the direct-attempt client; but the direct-attempt
client and the redirect-check client are fresh clients with *no*
timeout, and every request issued by `checkForRedirect` uses the
latter. -/
theorem claim9_timeouts :
    resolverClient.timeout = some 30 ∧
    directClient.timeout = none ∧
    redirectCheckClient.timeout = none ∧
    (∀ (env : Env) (n : Nat) (url : String) (i : Issued),
      (i ∈ (fetchActivityPubObjectWithSignature env n url).log ∨
        i ∈ (fetchActivityPubObjectDirect env n url).log) →
      i.client = directClient ∨ i.client = resolverClient) ∧
    (∀ (env : Env) (url : String) (i : Issued),
      i ∈ (checkForRedirect env url).1 → i.client = redirectCheckClient) := by
  refine ⟨rfl, rfl, rfl, ?_, ?_⟩
  · intro env n url i hi
    have hshape : coreIssuedShape env i := by
      rcases hi with h | h
      · exact (fetch_log_shapes env n).1 url i h
      · exact (fetch_log_shapes env n).2 url i h
    rcases hshape with ⟨u, rfl⟩ | ⟨u, rfl⟩ | ⟨u, k, rfl⟩
    · exact Or.inl rfl
    · exact Or.inr rfl
    · exact Or.inr rfl
  · intro env url i hi
    have hloop := checkForRedirectLoop_clients env 10 url [] (by simp)
    unfold checkForRedirect at hi
    rcases hres : checkForRedirectLoop env 10 url [] with ⟨log, res⟩
    rw [hres] at hi hloop
    rcases res with e | r <;> exact hloop i hi

/-- C9, witness.  The amended theorem applied to concrete runs: the
one request of a failing direct fetch uses one of the two engine
clients, and the one request of a failing redirect check uses the
redirect-check client. -/
theorem claim9_witness :
    ((⟨directClient, directRequest "https://h.example/x"⟩ : Issued).client = directClient ∨
      (⟨directClient, directRequest "https://h.example/x"⟩ : Issued).client = resolverClient) ∧
    (⟨redirectCheckClient, redirectCheckRequest "https://h.example/x"⟩ : Issued).client =
      redirectCheckClient :=
  ⟨claim9_timeouts.2.2.2.1 envAllFail 1 "https://h.example/x"
      ⟨directClient, directRequest "https://h.example/x"⟩ (Or.inr (by decide)),
   claim9_timeouts.2.2.2.2 envAllFail "https://h.example/x"
      ⟨redirectCheckClient, redirectCheckRequest "https://h.example/x"⟩ (by decide)⟩

end FediResolve
